import Mathlib

/-!
# Verification of the refine provider/hook core

Shallow embedding of the repository's data-fetching hook (`src/src/hooks/data/useOne.ts`),
the layout/navigation shell (`Layout` and its `menuOnClick` handler), and the
router provider's unsaved-changes `Prompt` (from the router-provider documentation),
together with a model of the external query-caching layer described by the spec.
-/

set_option autoImplicit false
set_option linter.unusedVariables false

namespace Refine

universe u v

/-- Outcome of one asynchronous data-provider call: the promise either resolves
with a payload or rejects with a reason. -/
inductive FetchOutcome (ε : Type u) (α : Type v) where
  | ok (value : α)
  | err (reason : ε)
  deriving DecidableEq, Repr

/-- State of one cached query, as surfaced by the query layer's result object:
pending, success with payload, or failure with error. -/
inductive QueryStatus (ε : Type u) (α : Type v) where
  | loading
  | success (data : α)
  | error (reason : ε)
  deriving DecidableEq, Repr

/-- Turn a settled fetch outcome into the query status it produces. -/
def statusOf {ε : Type u} {α : Type v} : FetchOutcome ε α → QueryStatus ε α
  | .ok v => .success v
  | .err e => .error e

/-- Modelled from the spec: the query cache of the external query-caching layer
(react-query), which is not part of this repository. Per the spec, results are
"cached under a key derived from operation name and resource name", one entry
per query key. Represented as an association list from key to query status. -/
abbrev Cache (ε : Type u) (α : Type v) : Type (max u v) :=
  List (String × QueryStatus ε α)

/-- Modelled from the spec: cache lookup; "a query key uniquely determines which
cached result is returned", so lookup returns the (first) entry stored under the key. -/
def Cache.lookup {ε : Type u} {α : Type v} (c : Cache ε α) (k : String) :
    Option (QueryStatus ε α) :=
  match c with
  | [] => none
  | (k₀, st₀) :: rest => if k₀ == k then some st₀ else Cache.lookup rest k

/-- Result of mounting one query-layer hook: the key it computed, the status it
reports, the cache after the mount, and how many provider calls the mount triggered. -/
structure QueryRun (ε : Type u) (α : Type v) where
  key : String
  result : QueryStatus ε α
  cache : Cache ε α
  fetchCount : Nat
  deriving DecidableEq, Repr

/-- Modelled from the spec: mounting a query on the external query layer. The
fetch is "triggered automatically once per unique key"; an existing entry is
"served from cache until explicitly invalidated" and triggers no new fetch;
a missing entry triggers exactly one fetch whose settled outcome is stored. -/
def runQuery {ε : Type u} {α : Type v} (cache : Cache ε α) (key : String)
    (fetch : Unit → FetchOutcome ε α) : QueryRun ε α :=
  match Cache.lookup cache key with
  | some st => ⟨key, st, cache, 0⟩
  | none =>
      let outcome := fetch ()
      ⟨key, statusOf outcome, (key, statusOf outcome) :: cache, 1⟩

/-- Result of the subscription phase of a mount, before the fetch settles. -/
structure QuerySub (ε : Type u) (α : Type v) where
  key : String
  cache : Cache ε α
  fetchCount : Nat
  deriving DecidableEq, Repr

/-- Modelled from the spec: the subscription phase of a concurrent mount.
"Concurrent calls with the same key share one in-flight request"
("at-most-one concurrent fetch per key"): if the key already has an entry
(loading or settled) the mount attaches to it and starts no fetch; otherwise it
records a loading entry and starts the one fetch for the key. -/
def subscribeQuery {ε : Type u} {α : Type v} (cache : Cache ε α) (key : String) :
    QuerySub ε α :=
  match Cache.lookup cache key with
  | some _ => ⟨key, cache, 0⟩
  | none => ⟨key, (key, QueryStatus.loading) :: cache, 1⟩

/-- Modelled from the spec: an in-flight fetch settles, updating the entry
stored under its key with the settled outcome. -/
def settleQuery {ε : Type u} {α : Type v} (cache : Cache ε α) (key : String)
    (outcome : FetchOutcome ε α) : Cache ε α :=
  match cache with
  | [] => []
  | (k₀, st₀) :: rest =>
      if k₀ == key then (k₀, statusOf outcome) :: rest
      else (k₀, st₀) :: settleQuery rest key outcome

/-- The data provider's get-one capability: an asynchronous function from
resource name and record id to a settled payload or rejection reason
(`IDataContext.getOne` consumed by the hook). -/
def GetOne (ε : Type u) (α : Type v) : Type (max u v) :=
  String → String → FetchOutcome ε α

/-- Embeds the query-key expression of `useOne` in `src/src/hooks/data/useOne.ts`:
the template string resource/getOne/ followed by the resource name. The record id
does not occur in the expression. -/
def useOneQueryKey (resource : String) : String :=
  "resource/getOne/" ++ resource

/-- Embeds the fetch thunk of `useOne` in `src/src/hooks/data/useOne.ts`:
`() => getOne(resource, id)`. -/
def useOneFetcher {ε : Type u} {α : Type v} (getOne : GetOne ε α)
    (resource id : String) : Unit → FetchOutcome ε α :=
  fun _ => getOne resource id

/-- Embeds `useOne` (`src/src/hooks/data/useOne.ts`): reads `getOne` from the
data context, mounts a query under the key `useOneQueryKey resource` with the
fetch thunk `useOneFetcher getOne resource id`, and returns the query result. -/
def useOne {ε : Type u} {α : Type v} (getOne : GetOne ε α) (cache : Cache ε α)
    (resource id : String) : QueryRun ε α :=
  runQuery cache (useOneQueryKey resource) (useOneFetcher getOne resource id)

/-- The subscription phase of a `useOne` mount, for reasoning about two
near-simultaneous invocations: the key comes from the source's key expression,
the subscription from the spec-modelled query layer. -/
def useOneSubscribe {ε : Type u} {α : Type v} (cache : Cache ε α)
    (resource : String) (id : String) : QuerySub ε α :=
  subscribeQuery cache (useOneQueryKey resource)

/-- A concrete data provider used to evaluate the hook at concrete inputs:
resolves with payload "P" followed by the id, rejecting nothing. -/
def demoGetOne : GetOne String String :=
  fun _ id => .ok ("P" ++ id)

/-- A concrete data provider whose get-one always rejects with reason "boom". -/
def demoFailingGetOne : GetOne String String :=
  fun _ _ => .err "boom"

/-! ## Layout and navigation shell (`src/unnamed/part_000`) -/

/-- One sidebar menu entry as rendered by `Layout`: its `key` prop, the target
of the `Link` it wraps (if any), and its visible label. -/
structure MenuItem where
  key : String
  link : Option String
  label : String
  deriving DecidableEq, Repr

/-- Embeds the `Menu` rendered inside `Layout`'s sider (`src/unnamed/part_000`):
a dashboard item linking to "/", then one item per registry entry linking to
/resources/ followed by the resource name and labelled by `humanizeString`
(an external library, kept as a parameter), then the logout item with no link. -/
def layoutMenu (humanizeString : String → String) (resources : List String) :
    List MenuItem :=
  ⟨"dashboard", some "/", "Dashboard"⟩ ::
    (resources.map fun item =>
      ⟨"resource-" ++ item, some ("/resources/" ++ item), humanizeString item⟩) ++
    [⟨"logout", none, "Logout"⟩]

/-- The resource context `Layout` reads: the process-wide registry of resource
names (`IResourceContext.resources`). -/
structure IResourceContext where
  resources : List String
  deriving DecidableEq, Repr

/-- Embeds the rendering of `Layout` (`src/unnamed/part_000`) as it affects the
resource context: it reads `resources` from the context, builds the sidebar
menu from it, and performs no write to the context, returned unchanged. -/
def Layout (humanizeString : String → String) (ctx : IResourceContext) :
    List MenuItem × IResourceContext :=
  (layoutMenu humanizeString ctx.resources, ctx)

/-- Observable effects of a menu click handled by `Layout`: the console log,
the auth provider's logout call, and programmatic navigation via history.push. -/
inductive Effect where
  | consoleLog (msg : String)
  | authLogout
  | historyPush (path : String)
  deriving DecidableEq, Repr

/-- Settled state of the promise returned by the auth provider's `logout`. -/
inductive PromiseOutcome (ε : Type u) where
  | resolved
  | rejected (reason : ε)
  deriving DecidableEq, Repr

/-- Embeds `menuOnClick` (`src/unnamed/part_000`) as the trace of effects it
produces for a click on the item with the given key, given how the auth
provider's logout promise settles: it always logs the clicked key; if the key
is "logout" it calls `logout({})` and, only when that promise resolves, the
`then` continuation pushes "/login"; any other key triggers nothing further. -/
def menuOnClick {ε : Type u} (logoutOutcome : PromiseOutcome ε) (key : String) :
    List Effect :=
  Effect.consoleLog ("clicked -> " ++ key) ::
    (if key == "logout" then
      Effect.authLogout ::
        (match logoutOutcome with
          | .resolved => [Effect.historyPush "/login"]
          | .rejected _ => [])
    else [])

/-! ## Router provider `Prompt`
(`src/documentation/versioned_docs/version-2.xx.xx/api-references/providers/router-provider.md`) -/

/-- What the `Prompt`'s route-change handler did: whether a confirmation dialog
was shown, whether the route change is allowed to proceed, and whether
`setWarnWhen(false)` was invoked. -/
structure PromptResult where
  confirmationShown : Bool
  allowTransition : Bool
  warnWhenCleared : Bool
  deriving DecidableEq, Repr

/-- Embeds the `routeChangeStart` handler of the `Prompt` component in the
router-provider documentation: when the `when` flag is false it does nothing
and the transition proceeds; when the flag is true it asks `window.confirm`;
on confirmation it clears the warn flag and allows the transition, otherwise
it aborts the route change. -/
def promptRouteChangeStart (whenFlag : Bool) (userConfirms : Bool) : PromptResult :=
  if whenFlag then
    if userConfirms then
      ⟨true, true, true⟩
    else
      ⟨true, false, false⟩
  else
    ⟨false, true, false⟩

/-! ## Helper lemmas -/

theorem runQuery_key {ε : Type u} {α : Type v} (cache : Cache ε α) (key : String)
    (fetch : Unit → FetchOutcome ε α) : (runQuery cache key fetch).key = key := by
  unfold runQuery
  cases Cache.lookup cache key <;> rfl

theorem subscribeQuery_key {ε : Type u} {α : Type v} (cache : Cache ε α)
    (key : String) : (subscribeQuery cache key).key = key := by
  unfold subscribeQuery
  cases Cache.lookup cache key <;> rfl

theorem subscribeQuery_fetchCount_le {ε : Type u} {α : Type v} (cache : Cache ε α)
    (key : String) : (subscribeQuery cache key).fetchCount ≤ 1 := by
  unfold subscribeQuery
  cases Cache.lookup cache key <;> simp

theorem lookup_subscribeQuery_isSome {ε : Type u} {α : Type v} (cache : Cache ε α)
    (key : String) :
    (Cache.lookup (subscribeQuery cache key).cache key).isSome = true := by
  unfold subscribeQuery
  cases h : Cache.lookup cache key with
  | some st => simp [h]
  | none => simp [Cache.lookup]

theorem subscribeQuery_noFetch_of_isSome {ε : Type u} {α : Type v}
    (cache : Cache ε α) (key : String)
    (h : (Cache.lookup cache key).isSome = true) :
    (subscribeQuery cache key).fetchCount = 0 := by
  unfold subscribeQuery
  cases hl : Cache.lookup cache key with
  | some st => rfl
  | none => rw [hl] at h; simp at h

/-! ## Theorems for the claims -/

/-- C9: whenever `useOne`'s fetch function runs, it calls the data provider's
`getOne` with exactly the resource and id the hook received, in that order, and
returns the provider's result without transformation; when the key is uncached
the hook's reported status is exactly the status of that provider outcome. -/
theorem useOne_fetcher_is_getOne {ε : Type u} {α : Type v} (getOne : GetOne ε α)
    (cache : Cache ε α) (resource id : String)
    (hmiss : Cache.lookup cache (useOneQueryKey resource) = none) :
    useOneFetcher getOne resource id () = getOne resource id ∧
    (useOne getOne cache resource id).result = statusOf (getOne resource id) := by
  refine ⟨rfl, ?_⟩
  unfold useOne runQuery
  rw [hmiss]
  rfl

/-- Witness for C9 at a concrete provider, resource and id. -/
theorem useOne_fetcher_is_getOne_witness :
    useOneFetcher demoGetOne "posts" "1" () = demoGetOne "posts" "1" ∧
    (useOne demoGetOne [] "posts" "1").result = statusOf (demoGetOne "posts" "1") :=
  useOne_fetcher_is_getOne demoGetOne [] "posts" "1" rfl

/-- C4: if the provider's get-one rejects with reason `e` and the key is not
already cached (so the fetch actually runs), the hook's result is the failure
state carrying `e` unmodified, is not a success state for any payload, and the
hook triggers exactly one provider call (no retry). -/
theorem useOne_error_propagates {ε : Type u} {α : Type v} (getOne : GetOne ε α)
    (cache : Cache ε α) (resource id : String) (e : ε)
    (hmiss : Cache.lookup cache (useOneQueryKey resource) = none)
    (hrej : getOne resource id = .err e) :
    (useOne getOne cache resource id).result = .error e ∧
    (∀ v : α, (useOne getOne cache resource id).result ≠ .success v) ∧
    (useOne getOne cache resource id).fetchCount = 1 := by
  unfold useOne runQuery
  rw [hmiss]
  simp [useOneFetcher, hrej, statusOf]

/-- Witness for C4: the always-failing provider at resource "posts", id "1". -/
theorem useOne_error_propagates_witness :
    (useOne demoFailingGetOne [] "posts" "1").result = .error "boom" ∧
    (∀ v : String, (useOne demoFailingGetOne [] "posts" "1").result ≠ .success v) ∧
    (useOne demoFailingGetOne [] "posts" "1").fetchCount = 1 :=
  useOne_error_propagates demoFailingGetOne [] "posts" "1" "boom" rfl rfl

/-- C8: the query key computed by `useOne` is resource/getOne/ followed by the
resource name, identical for any two ids of the same resource; after a first
mount with id `i₁` cached payload `v`, a mount for a different id `i₂` of the
same resource observes that cached entry: it reports `v` and triggers no fetch. -/
theorem useOne_key_ignores_id {ε : Type u} {α : Type v} (getOne : GetOne ε α)
    (c₁ c₂ : Cache ε α) (resource i₁ i₂ : String) (v : α)
    (hok : getOne resource i₁ = .ok v) :
    (useOne getOne c₁ resource i₁).key = (useOne getOne c₂ resource i₂).key ∧
    (useOne getOne c₁ resource i₁).key = "resource/getOne/" ++ resource ∧
    (useOne getOne (useOne getOne [] resource i₁).cache resource i₂).result
      = .success v ∧
    (useOne getOne (useOne getOne [] resource i₁).cache resource i₂).fetchCount
      = 0 := by
  refine ⟨?_, ?_, ?_, ?_⟩
  · unfold useOne; rw [runQuery_key, runQuery_key]
  · unfold useOne; rw [runQuery_key]; rfl
  · simp [useOne, runQuery, Cache.lookup, useOneFetcher, hok, statusOf]
  · simp [useOne, runQuery, Cache.lookup, useOneFetcher, hok, statusOf]

/-- Witness for C8: resource "posts", ids "1" and "2", payload "P1". -/
theorem useOne_key_ignores_id_witness :
    (useOne demoGetOne [] "posts" "1").key = (useOne demoGetOne [] "posts" "2").key ∧
    (useOne demoGetOne [] "posts" "1").key = "resource/getOne/" ++ "posts" ∧
    (useOne demoGetOne (useOne demoGetOne [] "posts" "1").cache "posts" "2").result
      = .success "P1" ∧
    (useOne demoGetOne (useOne demoGetOne [] "posts" "1").cache "posts" "2").fetchCount
      = 0 :=
  useOne_key_ignores_id demoGetOne [] [] "posts" "1" "2" "P1" rfl

/-- C1, evaluated at the failing input: mounting `useOne` for resource "posts"
with id "1" and then with id "2" computes the same query key both times, and
the second mount triggers no new fetch, serving the first id's cached state
(its payload "P1"), contrary to the claimed distinct key and new fetch. -/
theorem useOne_distinct_ids_share_key :
    (useOne demoGetOne [] "posts" "1").key
      = (useOne demoGetOne (useOne demoGetOne [] "posts" "1").cache "posts" "2").key ∧
    (useOne demoGetOne (useOne demoGetOne [] "posts" "1").cache "posts" "2").fetchCount
      = 0 ∧
    (useOne demoGetOne (useOne demoGetOne [] "posts" "1").cache "posts" "2").result
      = .success "P1" := by
  decide

/-- C2, evaluated at the failing input: the provider resolves payload "P1" for
(resource "posts", id "1"), but after a mount for id "2" populated the shared
key, the hook for ("posts", "1") reports the cached payload "P2" of the other
id, triggers no fetch, and never reports success with "P1". -/
theorem useOne_reports_other_cached_payload :
    demoGetOne "posts" "1" = .ok "P1" ∧
    (useOne demoGetOne (useOne demoGetOne [] "posts" "2").cache "posts" "1").result
      = .success "P2" ∧
    (useOne demoGetOne (useOne demoGetOne [] "posts" "2").cache "posts" "1").fetchCount
      = 0 ∧
    (useOne demoGetOne (useOne demoGetOne [] "posts" "2").cache "posts" "1").result
      ≠ .success "P1" := by
  decide

/-- C3: two `useOne` invocations with identical resource, operation and
parameters compute the identical query key; between the two subscriptions at
most one provider fetch is started (the second one starts none once the first
has subscribed), and after both have mounted, each invocation's key looks up
the same cache entry, which exists. -/
theorem useOne_identical_params_share_entry {ε : Type u} {α : Type v}
    (cache : Cache ε α) (resource id : String) :
    (useOneSubscribe cache resource id).key
      = (useOneSubscribe (useOneSubscribe cache resource id).cache resource id).key ∧
    (useOneSubscribe cache resource id).fetchCount
      + (useOneSubscribe (useOneSubscribe cache resource id).cache resource id).fetchCount
      ≤ 1 ∧
    Cache.lookup (useOneSubscribe (useOneSubscribe cache resource id).cache resource id).cache
        (useOneSubscribe cache resource id).key
      = Cache.lookup (useOneSubscribe (useOneSubscribe cache resource id).cache resource id).cache
        (useOneSubscribe (useOneSubscribe cache resource id).cache resource id).key ∧
    (Cache.lookup (useOneSubscribe (useOneSubscribe cache resource id).cache resource id).cache
        (useOneSubscribe cache resource id).key).isSome = true := by
  have hsecond :
      (useOneSubscribe (useOneSubscribe cache resource id).cache resource id).fetchCount
        = 0 :=
    subscribeQuery_noFetch_of_isSome _ _
      (lookup_subscribeQuery_isSome cache (useOneQueryKey resource))
  unfold useOneSubscribe at hsecond ⊢
  refine ⟨?_, ?_, ?_, ?_⟩
  · rw [subscribeQuery_key, subscribeQuery_key]
  · rw [hsecond]
    simpa using subscribeQuery_fetchCount_le cache (useOneQueryKey resource)
  · rw [subscribeQuery_key, subscribeQuery_key]
  · rw [subscribeQuery_key]
    exact lookup_subscribeQuery_isSome _ _

/-- C6: a click on the "logout" menu item calls the auth provider's logout; the
navigation push to "/login" occurs in the effect trace exactly when the logout
promise resolves, and the logout call precedes the push in the trace. -/
theorem menuOnClick_logout_then_login (o : PromiseOutcome String) :
    Effect.authLogout ∈ menuOnClick o "logout" ∧
    (Effect.historyPush "/login" ∈ menuOnClick o "logout" ↔ o = .resolved) ∧
    (menuOnClick o "logout").indexOf Effect.authLogout
      < (menuOnClick o "logout").indexOf (Effect.historyPush "/login") := by
  cases o with
  | resolved => decide
  | rejected e =>
      refine ⟨?_, ?_, ?_⟩ <;> simp [menuOnClick]

/-- C10: a click on any menu item whose key is not "logout" neither invokes the
auth provider's logout nor performs any navigation via history.push, whatever
the logout promise would have done. -/
theorem menuOnClick_other_keys_no_effect {ε : Type u} (o : PromiseOutcome ε)
    (key : String) (h : key ≠ "logout") :
    Effect.authLogout ∉ menuOnClick o key ∧
    ∀ path : String, Effect.historyPush path ∉ menuOnClick o key := by
  have hkey : (key == "logout") = false := by simp [h]
  constructor <;> simp [menuOnClick, hkey]

/-- Witness for C10: clicking the dashboard item. -/
theorem menuOnClick_other_keys_no_effect_witness :
    Effect.authLogout ∉ menuOnClick (ε := String) .resolved "dashboard" ∧
    ∀ path : String,
      Effect.historyPush path ∉ menuOnClick (ε := String) .resolved "dashboard" :=
  menuOnClick_other_keys_no_effect .resolved "dashboard" (by decide)

theorem string_append_right_inj (p : String) {s t : String}
    (h : p ++ s = p ++ t) : s = t := by
  apply String.ext
  have hd := congrArg String.data h
  rw [String.data_append, String.data_append] at hd
  exact List.append_cancel_left hd

theorem resourceLink_ne_root (nm : String) : "/" ≠ "/resources/" ++ nm := by
  intro h
  have hlen := congrArg String.length h
  rw [String.length_append] at hlen
  have h1 : String.length "/" = 1 := rfl
  have h2 : String.length "/resources/" = 11 := rfl
  omega

/-- C5: the Layout sidebar built from the resource registry has, for each name
in the registry (names being unique), exactly one menu entry whose link target
is /resources/ followed by that name; the links of the whole menu are the
dashboard link, then the registry's resource links in registry order, then the
linkless logout entry; and rendering returns the resource context unchanged. -/
theorem Layout_sidebar_from_registry (humanizeString : String → String)
    (ctx : IResourceContext) (hnd : ctx.resources.Nodup)
    (nm : String) (hmem : nm ∈ ctx.resources) :
    ((Layout humanizeString ctx).1.filter
        (fun m => m.link == some ("/resources/" ++ nm))).length = 1 ∧
    (Layout humanizeString ctx).1.map MenuItem.link
      = some "/" :: (ctx.resources.map (fun item => some ("/resources/" ++ item))
          ++ [none]) ∧
    (Layout humanizeString ctx).2 = ctx := by
  refine ⟨?_, ?_, rfl⟩
  · rw [← List.countP_eq_length_filter]
    have hpd : ((some "/" : Option String) == some ("/resources/" ++ nm)) = false := by
      rw [beq_eq_false_iff_ne]
      intro hc
      exact resourceLink_ne_root nm (Option.some.inj hc)
    have hcomp : ((fun m : MenuItem => m.link == some ("/resources/" ++ nm)) ∘
        (fun item : String =>
          (⟨"resource-" ++ item, some ("/resources/" ++ item),
            humanizeString item⟩ : MenuItem)))
        = fun item : String => item == nm := by
      funext item
      by_cases hcase : item = nm
      · subst hcase; simp [Function.comp]
      · have hne : ((some ("/resources/" ++ item) : Option String)
            == some ("/resources/" ++ nm)) = false := by
          rw [beq_eq_false_iff_ne]
          intro hc
          exact hcase (string_append_right_inj _ (Option.some.inj hc))
        simp only [Function.comp]
        rw [hne, beq_eq_false_iff_ne.mpr hcase]
    have hcount : (ctx.resources.map (fun item : String =>
        (⟨"resource-" ++ item, some ("/resources/" ++ item),
          humanizeString item⟩ : MenuItem))).countP
        (fun m => m.link == some ("/resources/" ++ nm)) = 1 := by
      rw [List.countP_map, hcomp]
      rw [← List.count_eq_countP]
      exact List.count_eq_one_of_mem hnd hmem
    simp [Layout, layoutMenu, List.countP_cons, List.countP_append, hpd, hcount]
  · simp [Layout, layoutMenu, Function.comp]

/-- Witness for C5: registry with resources "posts" and "users", checked at
name "posts", with the identity in place of the humanizing label function. -/
theorem Layout_sidebar_from_registry_witness :
    ((Layout (fun s => s) ⟨["posts", "users"]⟩).1.filter
        (fun m => m.link == some ("/resources/" ++ "posts"))).length = 1 ∧
    (Layout (fun s => s) ⟨["posts", "users"]⟩).1.map MenuItem.link
      = some "/" :: ((["posts", "users"].map
          (fun item => some ("/resources/" ++ item))) ++ [none]) ∧
    (Layout (fun s => s) ⟨["posts", "users"]⟩).2 = ⟨["posts", "users"]⟩ :=
  Layout_sidebar_from_registry (fun s => s) ⟨["posts", "users"]⟩ (by decide)
    "posts" (by decide)

/-- C7: the unsaved-changes prompt is gated by the boolean flag: with the flag
false no confirmation is shown and the transition always proceeds; with the
flag true a confirmation is shown and the transition proceeds exactly when the
user confirms. -/
theorem prompt_gated_by_when (userConfirms : Bool) :
    (promptRouteChangeStart false userConfirms).confirmationShown = false ∧
    (promptRouteChangeStart false userConfirms).allowTransition = true ∧
    (promptRouteChangeStart true userConfirms).confirmationShown = true ∧
    (promptRouteChangeStart true userConfirms).allowTransition = userConfirms := by
  cases userConfirms <;> decide

end Refine
